import Mathlib

/-!
# Verification of the chat-with-pdf front-end state coordinator

Shallow embedding of the two React components cited by the specification:

* `ChatApp` — `src/components/chatapp/ChatApp.tsx` (the richer variant, with
  retrieval sources and a `sessionInfo` panel);
* `PartA`  — the first component of the unnamed source file (the simpler
  variant: no sources, no session-info panel).

Each asynchronous handler is embedded as a pure state-transition function.
The outcome of every remote `fetch` (network error / non-2xx / body-parse
result) is passed in explicitly as an inductive "outcome" value, and each
function additionally returns the list of HTTP requests it issued, so that
"no network call is made" is a provable statement.  Presentation-only state
(`dragOver`, `sidebarOpen`, `isMobile`, `showSources`, scroll refs) is not
modelled: no claimed operation reads or writes it.  JavaScript truthiness of
optional strings (`errorData.error || fallback`, `selected.sessionId`) is
modelled with `Option String`, `none` covering the absent/falsy cases, and
`input.trim()` is modelled with `jsTrim`, a structurally recursive trim
over the character list (same whitespace predicate as `String.trim`, but
computable by the kernel).
-/

namespace ChatPdf

/-- `String.prototype.trim`: strip leading and trailing whitespace.
Defined by structural recursion on the character list so that concrete
instances evaluate. -/
def jsTrim (s : String) : String :=
  ⟨((s.data.dropWhile Char.isWhitespace).reverse.dropWhile
      Char.isWhitespace).reverse⟩

/-- Message author: the JS code uses the literals "user" and "bot". -/
inductive Role where
  | user
  | bot
deriving DecidableEq, Repr

/-- A retrieval source attached to an assistant message (richer variant). -/
structure Source where
  content : String
  source : String
  type : String
deriving DecidableEq, Repr

/-- One entry of the document registry; fields as in the `Document`
interface of both components. -/
structure Document where
  id : String
  name : String
  size : Nat
  uploaded : Bool
  progress : Nat
  selected : Bool
  sessionId : Option String := none
  error : Option String := none
deriving DecidableEq, Repr

/-- The `SessionInfo` interface of the richer variant. -/
structure SessionInfo where
  session_id : String
  total_documents : Nat
  has_vectorstore : Bool
  has_chain : Bool
  document_names : List String
  chat_history_length : Nat
  created_at : String
deriving DecidableEq, Repr

/-- The relevant part of a browser `File` object. -/
structure JsFile where
  name : String
  type : String
  size : Nat
deriving DecidableEq, Repr

/-- Backend health, `useState<"unknown" | "healthy" | "unhealthy">`. -/
inductive BackendStatus where
  | unknown
  | healthy
  | unhealthy
deriving DecidableEq, Repr

/-- An HTTP request issued by a handler (endpoint plus payload data). -/
inductive Request where
  | health
  | createSession
  | uploadPdf (sessionId : String) (fileName : String)
  | chat (sessionId : Option String) (question : String)
  | clearSession (sessionId : String)
  | sessionInfoGet (sessionId : String)
deriving DecidableEq, Repr

/-- Outcome of the `/chat` fetch.  `notOk` carries the status, the status
text and the result of the best-effort error-body parse: `none` means the
error body failed to parse, `some none` means it parsed but the `error`
field was absent or falsy, `some (some e)` means it held `e`.
`okParseFail` is a 2xx response whose body failed `res.json()`; the thrown
parse error's message is carried. -/
inductive ChatOutcome where
  | netErr (msg : String)
  | notOk (status : Nat) (statusText : String) (errBody : Option (Option String))
  | okParseFail (msg : String)
  | ok (answer : Option String) (sources : Option (List Source))
deriving DecidableEq, Repr

/-- A `/chat` outcome on which the handlers take their catch path. -/
def ChatOutcome.isFailure : ChatOutcome → Bool
  | .ok _ _ => false
  | _ => true

/-- Outcome of the phase-1 `/create-session` fetch.  In `notOk`,
`errField` is the parsed body's `error` field (`none` = body unparsable or
field absent/falsy); `okParseFail` is a 2xx response whose body failed to
parse; `ok` carries the returned `session_id`. -/
inductive Phase1Outcome where
  | netErr (msg : String)
  | notOk (status : Nat) (errField : Option String)
  | okParseFail (msg : String)
  | ok (sessionId : String)
deriving DecidableEq, Repr

/-- A phase-1 outcome on which the upload takes its catch path before
phase 2. -/
def Phase1Outcome.isFailure : Phase1Outcome → Bool
  | .ok _ => false
  | _ => true

/-- Outcome of the phase-2 `/upload-pdf` fetch; shape as in
`Phase1Outcome`, with the status text, and on `ok` the optional
`session_info` object of the response body. -/
inductive Phase2Outcome where
  | netErr (msg : String)
  | notOk (status : Nat) (statusText : String) (errField : Option String)
  | okParseFail (msg : String)
  | ok (sessionInfo : Option SessionInfo)
deriving DecidableEq, Repr

/-- Outcome of the `/clear-session/:id` DELETE fetch. -/
inductive DeleteOutcome where
  | netErr (msg : String)
  | notOk (status : Nat) (errField : Option String)
  | ok
deriving DecidableEq, Repr

/-- A delete outcome on which `removeDocument` takes an error path. -/
def DeleteOutcome.isFailure : DeleteOutcome → Bool
  | .ok => false
  | _ => true

/-- Outcome of the `/health` fetch: a network error, or a response with
its `ok` flag, status and whether its body parses as JSON. -/
inductive HealthOutcome where
  | netErr
  | response (ok : Bool) (status : Nat) (bodyParses : Bool)
deriving DecidableEq, Repr

namespace ChatApp

/-- A chat message of the richer variant (`sources` list, empty when the
response carried none). -/
structure Message where
  role : Role
  content : String
  timestamp : Nat
  sources : List Source := []
deriving DecidableEq, Repr

/-- The component state touched by the claimed operations. -/
structure State where
  messages : List Message := []
  input : String := ""
  loading : Bool := false
  documents : List Document := []
  apiError : String := ""
  backendStatus : BackendStatus := .unknown
  sessionInfo : Option SessionInfo := none
deriving DecidableEq, Repr

/-- The initial `useState` values. -/
def initState : State := {}

/-- `checkHealth`: on a response, `res.ok` first gates; the richer variant
then awaits `res.json()` before setting "healthy", so an ok response with
an unparsable body falls into the catch and yields "unhealthy". -/
def checkHealth (s : State) (out : HealthOutcome) : State × List Request :=
  match out with
  | .netErr => ({ s with backendStatus := .unhealthy }, [.health])
  | .response ok _ bodyParses =>
      if ok then
        if bodyParses then ({ s with backendStatus := .healthy }, [.health])
        else ({ s with backendStatus := .unhealthy }, [.health])
      else ({ s with backendStatus := .unhealthy }, [.health])

/-- `updateSessionInfo`: GET `/session-info/:id`; sets `sessionInfo` only
when the response is ok and its body parses (`res = some info`); every
other outcome is swallowed by its catch. -/
def updateSessionInfo (s : State) (sid : String) (res : Option SessionInfo) :
    State × List Request :=
  (match res with
   | some info => { s with sessionInfo := some info }
   | none => s, [.sessionInfoGet sid])

/-- The error message `sendMessage` computes for a failing `/chat` call:
`errorData.error || "API error: N"` when the error body parses, the
status line when it does not, the thrown message otherwise. -/
def chatErrorMessage : ChatOutcome → String
  | .netErr m => m
  | .notOk status statusText errBody =>
      match errBody with
      | some (some e) => e
      | some none => s!"API error: {status}"
      | none => s!"{status}: {statusText}"
  | .okParseFail m => m
  | .ok _ _ => ""

/-- The fixed assistant-facing apology of the richer variant. -/
def apology : String :=
  "I encountered an error while processing your question. Please try again."

/-- `sendMessage` of the richer variant.  `out` is the `/chat` outcome,
`uo` the swallowed result of the follow-up `updateSessionInfo`, `t1`/`t2`
the two `new Date()` timestamps. -/
def sendMessage (s : State) (out : ChatOutcome) (uo : Option SessionInfo)
    (t1 t2 : Nat) : State × List Request :=
  let selected? := s.documents.find? fun (d : Document) => d.selected && d.uploaded
  if jsTrim s.input = "" then (s, []) else
  match selected? with
  | none => (s, [])
  | some sel =>
      let q := s.input
      let userMsg : Message := { role := .user, content := q, timestamp := t1 }
      let s1 := { s with messages := s.messages ++ [userMsg], input := "",
                         loading := true, apiError := "" }
      match out with
      | .ok answer sources =>
          let botMsg : Message :=
            { role := .bot, content := answer.getD "No response received",
              timestamp := t2, sources := sources.getD [] }
          let s2 := { s1 with messages := s1.messages ++ [botMsg] }
          match sel.sessionId with
          | some sid =>
              let r := updateSessionInfo s2 sid uo
              ({ r.1 with loading := false }, .chat sel.sessionId q :: r.2)
          | none => ({ s2 with loading := false }, [.chat sel.sessionId q])
      | _ =>
          let m := chatErrorMessage out
          let botMsg : Message :=
            { role := .bot, content := apology, timestamp := t2, sources := [] }
          ({ s1 with apiError := m, messages := s1.messages ++ [botMsg],
                     loading := false }, [.chat sel.sessionId q])

/-- Validation message for a non-PDF file (richer variant). -/
def notPdfMsg (name : String) : String :=
  s!"{name} is not a PDF file. Only PDF files are allowed."

/-- Validation message for an oversized file (richer variant). -/
def tooLargeMsg (name : String) : String :=
  s!"{name} is too large. Maximum size is 10MB."

/-- Error message thrown for a failing phase-1 `/create-session` call. -/
def sessionErrMsg : Phase1Outcome → String
  | .netErr m => m
  | .notOk status errField => errField.getD s!"Session creation failed: {status}"
  | .okParseFail m => m
  | .ok _ => ""

/-- Error message thrown for a failing phase-2 `/upload-pdf` call. -/
def uploadErrMsg : Phase2Outcome → String
  | .netErr m => m
  | .notOk status statusText errField =>
      errField.getD s!"Upload failed: {status} {statusText}"
  | .okParseFail m => m
  | .ok _ => ""

/-- The per-file body of `handleFileUpload` in the richer variant:
validation, document creation, then the two-phase handshake.  `id` is the
`Math.random()` identifier generated for this file. -/
def processFile (s : State) (file : JsFile) (id : String)
    (p1 : Phase1Outcome) (p2 : Phase2Outcome) : State × List Request :=
  let nm := file.name
  if file.type ≠ "application/pdf" then
    ({ s with apiError := notPdfMsg nm }, [])
  else if file.size > 10 * 1024 * 1024 then
    ({ s with apiError := tooLargeMsg nm }, [])
  else
    let doc : Document := { id := id, name := nm, size := file.size,
                            uploaded := false, progress := 0, selected := false }
    let s0 := { s with documents := s.documents ++ [doc] }
    let s1 := { s0 with documents := s0.documents.map fun (d : Document) =>
                  if d.id == id then { d with progress := 25 } else d }
    match p1 with
    | .ok sid =>
        let s2 := { s1 with documents := s1.documents.map fun (d : Document) =>
                      if d.id == id then { d with progress := 50, sessionId := some sid }
                      else d }
        match p2 with
        | .ok sinfo =>
            let s3 := { s2 with documents := s2.documents.map fun (d : Document) =>
                          if d.id == id then { d with progress := 100, uploaded := true }
                          else d }
            let s4 := match sinfo with
                      | some info => { s3 with sessionInfo := some info }
                      | none => s3
            (s4, [.createSession, .uploadPdf sid nm])
        | _ =>
            let m := uploadErrMsg p2
            ({ s2 with documents := s2.documents.map fun (d : Document) =>
                         if d.id == id then
                           { d with error := some m, progress := 0, uploaded := false }
                         else d,
                       apiError := s!"Failed to upload {nm}: {m}" },
             [.createSession, .uploadPdf sid nm])
    | _ =>
        let m := sessionErrMsg p1
        ({ s1 with documents := s1.documents.map fun (d : Document) =>
                     if d.id == id then
                       { d with error := some m, progress := 0, uploaded := false }
                     else d,
                   apiError := s!"Failed to upload {nm}: {m}" },
         [.createSession])

/-- One file together with its generated id and remote outcomes. -/
structure FileTask where
  file : JsFile
  id : String
  p1 : Phase1Outcome
  p2 : Phase2Outcome

/-- `handleFileUpload`: returns on a null `FileList`, clears the error
banner, then processes the files in order. -/
def handleFileUpload (s : State) (files : Option (List FileTask)) :
    State × List Request :=
  match files with
  | none => (s, [])
  | some fs =>
      fs.foldl
        (fun acc t =>
          let r := processFile acc.1 t.file t.id t.p1 t.p2
          (r.1, acc.2 ++ r.2))
        ({ s with apiError := "" }, ([] : List Request))

/-- Error message thrown for a failing `/clear-session` call
(richer variant). -/
def deleteErrMsg : DeleteOutcome → String
  | .netErr m => m
  | .notOk status errField => errField.getD s!"Delete failed: {status}"
  | .ok => ""

/-- `removeDocument` of the richer variant: snapshot, optimistic filter,
remote teardown when a session id is present, rollback to the snapshot
plus error banner on any failure; on the success path the session-info
panel is cleared when the removed document was selected. -/
def removeDocument (s : State) (id : String) (sessionId : Option String)
    (out : DeleteOutcome) : State × List Request :=
  let originalDocuments := s.documents
  let s1 := { s with documents := s.documents.filter fun (d : Document) => d.id != id }
  match sessionId with
  | some sid =>
      match out with
      | .ok =>
          let removedSelected :=
            match originalDocuments.find? (fun d => d.id == id) with
            | some d => d.selected
            | none => false
          (if removedSelected then { s1 with sessionInfo := none } else s1,
           [.clearSession sid])
      | _ =>
          ({ s1 with documents := originalDocuments,
                     apiError := s!"Failed to remove document: {deleteErrMsg out}" },
           [.clearSession sid])
  | none =>
      let removedSelected :=
        match originalDocuments.find? (fun d => d.id == id) with
        | some d => d.selected
        | none => false
      (if removedSelected then { s1 with sessionInfo := none } else s1, [])

/-- `toggleSelection` of the richer variant: exclusive toggle over the
registry, then the fire-and-forget `updateSessionInfo` when the clicked
document (looked up in the pre-toggle registry) has a session id and is
uploaded, else `setSessionInfo(null)`.  `uo` is the swallowed session-info
fetch result. -/
def toggleSelection (s : State) (id : String) (uo : Option SessionInfo) :
    State × List Request :=
  let s1 := { s with documents := s.documents.map fun (d : Document) =>
                { d with selected := d.id == id && !d.selected } }
  match s.documents.find? (fun d => d.id == id) with
  | some d =>
      match d.sessionId with
      | some sid =>
          if d.uploaded then updateSessionInfo s1 sid uo
          else ({ s1 with sessionInfo := none }, [])
      | none => ({ s1 with sessionInfo := none }, [])
  | none => ({ s1 with sessionInfo := none }, [])

end ChatApp

namespace PartA

/-- A chat message of the simpler variant (no sources). -/
structure Message where
  role : Role
  content : String
  timestamp : Nat
deriving DecidableEq, Repr

/-- The component state touched by the claimed operations. -/
structure State where
  messages : List Message := []
  input : String := ""
  loading : Bool := false
  documents : List Document := []
  apiError : String := ""
  backendStatus : BackendStatus := .unknown
deriving DecidableEq, Repr

/-- The initial `useState` values. -/
def initState : State := {}

/-- `checkHealth` of the simpler variant: `res.ok ? "healthy" : "unhealthy"`
— the body is never parsed. -/
def checkHealth (s : State) (out : HealthOutcome) : State × List Request :=
  match out with
  | .netErr => ({ s with backendStatus := .unhealthy }, [.health])
  | .response ok _ _ =>
      ({ s with backendStatus := if ok then .healthy else .unhealthy }, [.health])

/-- The error message computed for a failing `/chat` call in the simpler
variant: `data.error || "API error: N"`, the default surviving an
unparsable error body. -/
def chatErrorMessage : ChatOutcome → String
  | .netErr m => m
  | .notOk status _ errBody =>
      match errBody with
      | some (some e) => e
      | _ => s!"API error: {status}"
  | .okParseFail m => m
  | .ok _ _ => ""

/-- The fixed assistant-facing apology of the simpler variant. -/
def apology : String := "Error processing request. Please try again."

/-- `sendMessage` of the simpler variant. -/
def sendMessage (s : State) (out : ChatOutcome) (t1 t2 : Nat) :
    State × List Request :=
  let selected? := s.documents.find? fun (d : Document) => d.selected && d.uploaded
  if jsTrim s.input = "" then (s, []) else
  match selected? with
  | none => (s, [])
  | some sel =>
      let q := s.input
      let userMsg : Message := { role := .user, content := q, timestamp := t1 }
      let s1 := { s with messages := s.messages ++ [userMsg], input := "",
                         loading := true, apiError := "" }
      match out with
      | .ok answer _ =>
          let botMsg : Message :=
            { role := .bot, content := answer.getD "No response received",
              timestamp := t2 }
          ({ s1 with messages := s1.messages ++ [botMsg], loading := false },
           [.chat sel.sessionId q])
      | _ =>
          let m := chatErrorMessage out
          let botMsg : Message :=
            { role := .bot, content := apology, timestamp := t2 }
          ({ s1 with apiError := m, messages := s1.messages ++ [botMsg],
                     loading := false }, [.chat sel.sessionId q])

/-- Validation message for a non-PDF file (simpler variant). -/
def notPdfMsg : String := "PDF files only"

/-- Validation message for an oversized file (simpler variant). -/
def tooLargeMsg (name : String) : String := s!"{name} too large (max 10MB)"

/-- Error message thrown for a failing phase-1 call (fixed text on a
non-2xx response; the body is only parsed on the ok path, where a parse
failure throws its own message). -/
def sessionErrMsg : Phase1Outcome → String
  | .netErr m => m
  | .notOk _ _ => "Session creation failed"
  | .okParseFail m => m
  | .ok _ => ""

/-- Error message thrown for a failing phase-2 call. -/
def uploadErrMsg : Phase2Outcome → String
  | .netErr m => m
  | .notOk status _ errField => errField.getD s!"Upload failed ({status})"
  | _ => ""

/-- The per-file body of `handleFileUpload` in the simpler variant
(milestones 30/60/100; the success body of `/upload-pdf` is never parsed,
so a 2xx response succeeds even with an unparsable body; the catch sets
`error` and `progress` only). -/
def processFile (s : State) (file : JsFile) (id : String)
    (p1 : Phase1Outcome) (p2 : Phase2Outcome) : State × List Request :=
  let nm := file.name
  if file.type ≠ "application/pdf" then
    ({ s with apiError := notPdfMsg }, [])
  else if file.size > 10 * 1024 * 1024 then
    ({ s with apiError := tooLargeMsg nm }, [])
  else
    let doc : Document := { id := id, name := nm, size := file.size,
                            uploaded := false, progress := 0, selected := false }
    let s0 := { s with documents := s.documents ++ [doc] }
    let s1 := { s0 with documents := s0.documents.map fun (d : Document) =>
                  if d.id == id then { d with progress := 30 } else d }
    match p1 with
    | .ok sid =>
        let s2 := { s1 with documents := s1.documents.map fun (d : Document) =>
                      if d.id == id then { d with progress := 60, sessionId := some sid }
                      else d }
        match p2 with
        | .netErr _ | .notOk _ _ _ =>
            let m := uploadErrMsg p2
            ({ s2 with documents := s2.documents.map fun (d : Document) =>
                         if d.id == id then
                           { d with error := some s!"Failed: {m}", progress := 0 }
                         else d }, [.createSession, .uploadPdf sid nm])
        | _ =>
            ({ s2 with documents := s2.documents.map fun (d : Document) =>
                         if d.id == id then { d with progress := 100, uploaded := true }
                         else d }, [.createSession, .uploadPdf sid nm])
    | _ =>
        let m := sessionErrMsg p1
        ({ s1 with documents := s1.documents.map fun (d : Document) =>
                     if d.id == id then
                       { d with error := some s!"Failed: {m}", progress := 0 }
                     else d }, [.createSession])

/-- One file together with its generated id and remote outcomes. -/
structure FileTask where
  file : JsFile
  id : String
  p1 : Phase1Outcome
  p2 : Phase2Outcome

/-- `handleFileUpload` of the simpler variant. -/
def handleFileUpload (s : State) (files : Option (List FileTask)) :
    State × List Request :=
  match files with
  | none => (s, [])
  | some fs =>
      fs.foldl
        (fun acc t =>
          let r := processFile acc.1 t.file t.id t.p1 t.p2
          (r.1, acc.2 ++ r.2))
        ({ s with apiError := "" }, ([] : List Request))

/-- `removeDocument` of the simpler variant: the snapshot is restored
inside the `!res.ok` branch only, so a rejected fetch (network error)
reaches the catch without any restore — the banner is set but the
document stays removed. -/
def removeDocument (s : State) (id : String) (sessionId : Option String)
    (out : DeleteOutcome) : State × List Request :=
  let original := s.documents
  let s1 := { s with documents := s.documents.filter fun (d : Document) => d.id != id }
  match sessionId with
  | some sid =>
      match out with
      | .ok => (s1, [.clearSession sid])
      | .notOk status _ =>
          ({ s1 with documents := original,
                     apiError := s!"Remove failed: Delete failed ({status})" },
           [.clearSession sid])
      | .netErr m =>
          ({ s1 with apiError := s!"Remove failed: {m}" }, [.clearSession sid])
  | none => (s1, [])

/-- `toggleSelection` of the simpler variant: the exclusive toggle map,
with no check of the target's upload state. -/
def toggleSelection (s : State) (id : String) : State :=
  { s with documents := s.documents.map fun (d : Document) =>
      { d with selected := d.id == id && !d.selected } }

end PartA

/-! ## Registry predicates and list-level helper lemmas -/

/-- At most one document of the registry is selected. -/
def atMostOneSelected (ds : List Document) : Prop :=
  ds.countP (fun d => d.selected) ≤ 1

/-- The registry's client-generated identifiers are pairwise distinct
(the code relies on `Math.random` for this). -/
def idsNodup (ds : List Document) : Prop :=
  (ds.map Document.id).Nodup

/-- Selection only ever rests on a successfully uploaded, error-free
document. -/
def selImpliesUsable (ds : List Document) : Prop :=
  ∀ d ∈ ds, d.selected = true → d.uploaded = true ∧ d.error = none

/-- The invariant carried through reachability for the selection-count
claim. -/
def RegInv (ds : List Document) : Prop :=
  idsNodup ds ∧ atMostOneSelected ds

theorem map_update_fresh (ds : List Document) (id : String)
    (f : Document → Document) (h : ∀ d ∈ ds, d.id ≠ id) :
    ds.map (fun d => if d.id == id then f d else d) = ds := by
  have : ds.map (fun d => if d.id == id then f d else d) = ds.map (fun d => d) := by
    apply List.map_congr_left
    intro d hd
    simp [h d hd]
  simpa using this

theorem map_update_append (ds : List Document) (id : String)
    (f : Document → Document) (doc : Document) (hdoc : doc.id = id)
    (h : ∀ d ∈ ds, d.id ≠ id) :
    (ds ++ [doc]).map (fun d => if d.id == id then f d else d)
      = ds ++ [f doc] := by
  rw [List.map_append, map_update_fresh ds id f h]
  simp [hdoc]

theorem countP_id_le_one {ds : List Document} (h : idsNodup ds) (x : String) :
    ds.countP (fun d => d.id == x) ≤ 1 := by
  induction ds with
  | nil => simp
  | cons d t ih =>
      have hn : d.id ∉ t.map Document.id ∧ idsNodup t := by
        simpa [idsNodup, List.nodup_cons] using h
      by_cases hx : d.id = x
      · have ht0 : t.countP (fun e => e.id == x) = 0 := by
          rw [List.countP_eq_zero]
          intro e he
          have : e.id ≠ x := by
            intro hex
            exact hn.1 (hx ▸ hex ▸ List.mem_map_of_mem Document.id he)
          simp [this]
        simp [List.countP_cons, hx, ht0]
      · have := ih hn.2
        simp only [List.countP_cons]
        simpa [hx] using this

theorem toggle_atMostOne {ds : List Document} (h : idsNodup ds) (x : String) :
    atMostOneSelected
      (ds.map fun d => { d with selected := d.id == x && !d.selected }) := by
  unfold atMostOneSelected
  rw [List.countP_map]
  calc ds.countP ((fun d => d.selected) ∘
          fun d => { d with selected := d.id == x && !d.selected })
      ≤ ds.countP (fun d => d.id == x) := by
        apply List.countP_mono_left
        intro d _ hd
        simp only [Function.comp] at hd
        exact (Bool.and_eq_true _ _ ▸ hd).1
    _ ≤ 1 := countP_id_le_one h x

theorem idsNodup_map {ds : List Document} (f : Document → Document)
    (h : idsNodup ds) (hf : ∀ d ∈ ds, (f d).id = d.id) :
    idsNodup (ds.map f) := by
  unfold idsNodup
  rw [List.map_map]
  have : ds.map (Document.id ∘ f) = ds.map Document.id :=
    List.map_congr_left fun d hd => hf d hd
  rw [this]
  exact h

theorem idsNodup_append {ds : List Document} {doc : Document}
    (h : idsNodup ds) (hfresh : ∀ d ∈ ds, d.id ≠ doc.id) :
    idsNodup (ds ++ [doc]) := by
  unfold idsNodup
  rw [List.map_append]
  simp only [List.map_cons, List.map_nil]
  rw [List.nodup_append]
  refine ⟨h, List.nodup_singleton _, ?_⟩
  intro a ha hb
  have hb' : a = doc.id := by simpa using hb
  obtain ⟨d, hd, rfl⟩ := List.mem_map.1 ha
  exact hfresh d hd hb'

theorem atMostOne_append {ds : List Document} {doc : Document}
    (h : atMostOneSelected ds) (hdoc : doc.selected = false) :
    atMostOneSelected (ds ++ [doc]) := by
  unfold atMostOneSelected at h ⊢
  rw [List.countP_append]
  simpa [List.countP_cons, hdoc] using h

theorem atMostOne_map {ds : List Document} (f : Document → Document)
    (h : atMostOneSelected ds) (hf : ∀ d ∈ ds, (f d).selected = d.selected) :
    atMostOneSelected (ds.map f) := by
  unfold atMostOneSelected at h ⊢
  rw [List.countP_map]
  have : ds.countP ((fun d => d.selected) ∘ f) = ds.countP (fun d => d.selected) := by
    apply List.countP_congr
    intro d hd
    simp [Function.comp, hf d hd]
  rw [this]
  exact h

theorem RegInv_filter {ds : List Document} (p : Document → Bool)
    (h : RegInv ds) : RegInv (ds.filter p) := by
  obtain ⟨h1, h2⟩ := h
  refine ⟨?_, ?_⟩
  · exact ((List.filter_sublist ds).map Document.id).nodup h1
  · exact le_trans ((List.filter_sublist ds).countP_le _) h2

theorem selImpliesUsable_filter {ds : List Document} (p : Document → Bool)
    (h : selImpliesUsable ds) : selImpliesUsable (ds.filter p) := by
  intro d hd
  exact h d (List.mem_of_mem_filter hd)

theorem selImpliesUsable_append {ds : List Document} {doc : Document}
    (h : selImpliesUsable ds) (hdoc : doc.selected = false) :
    selImpliesUsable (ds ++ [doc]) := by
  intro d hd hsel
  rcases List.mem_append.1 hd with hd | hd
  · exact h d hd hsel
  · have : d = doc := by simpa using hd
    rw [this] at hsel
    exact absurd hsel (by simp [hdoc])

/-! ## Registry effect of each operation -/

theorem ChatApp.checkHealth_documents (s : ChatApp.State) (out : HealthOutcome) :
    (ChatApp.checkHealth s out).1.documents = s.documents := by
  unfold ChatApp.checkHealth
  cases out with
  | netErr => rfl
  | response ok status bp => cases ok <;> cases bp <;> rfl

theorem ChatApp.sendMessage_documents (s : ChatApp.State) (out : ChatOutcome)
    (uo : Option SessionInfo) (t1 t2 : Nat) :
    (ChatApp.sendMessage s out uo t1 t2).1.documents = s.documents := by
  unfold ChatApp.sendMessage ChatApp.updateSessionInfo
  dsimp only
  split
  · rfl
  · split
    · rfl
    · rename_i sel _
      cases out with
      | ok answer sources =>
          dsimp only
          cases sel.sessionId with
          | none => rfl
          | some sid => cases uo <;> rfl
      | netErr m => rfl
      | notOk a b c => rfl
      | okParseFail m => rfl

theorem ChatApp.sendMessage_backendStatus (s : ChatApp.State) (out : ChatOutcome)
    (uo : Option SessionInfo) (t1 t2 : Nat) :
    (ChatApp.sendMessage s out uo t1 t2).1.backendStatus = s.backendStatus := by
  unfold ChatApp.sendMessage ChatApp.updateSessionInfo
  dsimp only
  split
  · rfl
  · split
    · rfl
    · rename_i sel _
      cases out with
      | ok answer sources =>
          dsimp only
          cases sel.sessionId with
          | none => rfl
          | some sid => cases uo <;> rfl
      | netErr m => rfl
      | notOk a b c => rfl
      | okParseFail m => rfl

theorem ChatApp.toggleSelection_documents (s : ChatApp.State) (id : String)
    (uo : Option SessionInfo) :
    (ChatApp.toggleSelection s id uo).1.documents
      = s.documents.map (fun d => { d with selected := d.id == id && !d.selected }) := by
  unfold ChatApp.toggleSelection ChatApp.updateSessionInfo
  dsimp only
  split
  · rename_i d _
    cases d.sessionId with
    | some sid =>
        dsimp only
        split
        · cases uo <;> rfl
        · rfl
    | none => rfl
  · rfl

theorem ChatApp.removeDocument_documents_cases (s : ChatApp.State) (id : String)
    (sid : Option String) (out : DeleteOutcome) :
    (ChatApp.removeDocument s id sid out).1.documents
        = s.documents.filter (fun d => d.id != id) ∨
    (ChatApp.removeDocument s id sid out).1.documents = s.documents := by
  unfold ChatApp.removeDocument
  cases sid with
  | none => dsimp only; split <;> exact Or.inl rfl
  | some v =>
      cases out with
      | ok => dsimp only; split <;> exact Or.inl rfl
      | netErr m => exact Or.inr rfl
      | notOk a b => exact Or.inr rfl

theorem ChatApp.processFile_documents_cases (s : ChatApp.State) (file : JsFile)
    (id : String) (p1 : Phase1Outcome) (p2 : Phase2Outcome)
    (hfresh : ∀ d ∈ s.documents, d.id ≠ id) :
    (ChatApp.processFile s file id p1 p2).1.documents = s.documents ∨
    ∃ d' : Document, d'.id = id ∧ d'.selected = false ∧
      (ChatApp.processFile s file id p1 p2).1.documents = s.documents ++ [d'] := by
  unfold ChatApp.processFile
  dsimp only
  split
  · exact Or.inl rfl
  · split
    · exact Or.inl rfl
    · refine Or.inr ?_
      cases p1 with
      | ok sid =>
          cases p2 with
          | ok sinfo =>
              cases sinfo with
              | none =>
                  dsimp only
                  rw [map_update_append s.documents id _ _ rfl hfresh,
                      map_update_append s.documents id _ _ rfl hfresh,
                      map_update_append s.documents id _ _ rfl hfresh]
                  refine ⟨_, ?_, ?_, rfl⟩ <;> rfl
              | some info =>
                  dsimp only
                  rw [map_update_append s.documents id _ _ rfl hfresh,
                      map_update_append s.documents id _ _ rfl hfresh,
                      map_update_append s.documents id _ _ rfl hfresh]
                  refine ⟨_, ?_, ?_, rfl⟩ <;> rfl
          | netErr m =>
              dsimp only
              rw [map_update_append s.documents id _ _ rfl hfresh,
                  map_update_append s.documents id _ _ rfl hfresh,
                  map_update_append s.documents id _ _ rfl hfresh]
              refine ⟨_, ?_, ?_, rfl⟩ <;> rfl
          | notOk a b c =>
              dsimp only
              rw [map_update_append s.documents id _ _ rfl hfresh,
                  map_update_append s.documents id _ _ rfl hfresh,
                  map_update_append s.documents id _ _ rfl hfresh]
              refine ⟨_, ?_, ?_, rfl⟩ <;> rfl
          | okParseFail m =>
              dsimp only
              rw [map_update_append s.documents id _ _ rfl hfresh,
                  map_update_append s.documents id _ _ rfl hfresh,
                  map_update_append s.documents id _ _ rfl hfresh]
              refine ⟨_, ?_, ?_, rfl⟩ <;> rfl
      | netErr m =>
          dsimp only
          rw [map_update_append s.documents id _ _ rfl hfresh,
              map_update_append s.documents id _ _ rfl hfresh]
          refine ⟨_, ?_, ?_, rfl⟩ <;> rfl
      | notOk a b =>
          dsimp only
          rw [map_update_append s.documents id _ _ rfl hfresh,
              map_update_append s.documents id _ _ rfl hfresh]
          refine ⟨_, ?_, ?_, rfl⟩ <;> rfl
      | okParseFail m =>
          dsimp only
          rw [map_update_append s.documents id _ _ rfl hfresh,
              map_update_append s.documents id _ _ rfl hfresh]
          refine ⟨_, ?_, ?_, rfl⟩ <;> rfl

theorem PartA.checkHealth_documents_pa (s : PartA.State) (out : HealthOutcome) :
    (PartA.checkHealth s out).1.documents = s.documents := by
  unfold PartA.checkHealth
  cases out with
  | netErr => rfl
  | response ok status bp => rfl

theorem PartA.sendMessage_documents_pa (s : PartA.State) (out : ChatOutcome)
    (t1 t2 : Nat) :
    (PartA.sendMessage s out t1 t2).1.documents = s.documents := by
  unfold PartA.sendMessage
  dsimp only
  split
  · rfl
  · split
    · rfl
    · cases out <;> rfl

theorem PartA.toggleSelection_documents_pa (s : PartA.State) (id : String) :
    (PartA.toggleSelection s id).documents
      = s.documents.map (fun d => { d with selected := d.id == id && !d.selected }) :=
  rfl

theorem PartA.removeDocument_documents_cases_pa (s : PartA.State) (id : String)
    (sid : Option String) (out : DeleteOutcome) :
    (PartA.removeDocument s id sid out).1.documents
        = s.documents.filter (fun d => d.id != id) ∨
    (PartA.removeDocument s id sid out).1.documents = s.documents := by
  unfold PartA.removeDocument
  cases sid with
  | none => exact Or.inl rfl
  | some v =>
      cases out with
      | ok => exact Or.inl rfl
      | netErr m => exact Or.inl rfl
      | notOk a b => exact Or.inr rfl

theorem PartA.processFile_documents_cases_pa (s : PartA.State) (file : JsFile)
    (id : String) (p1 : Phase1Outcome) (p2 : Phase2Outcome)
    (hfresh : ∀ d ∈ s.documents, d.id ≠ id) :
    (PartA.processFile s file id p1 p2).1.documents = s.documents ∨
    ∃ d' : Document, d'.id = id ∧ d'.selected = false ∧
      (PartA.processFile s file id p1 p2).1.documents = s.documents ++ [d'] := by
  unfold PartA.processFile
  dsimp only
  split
  · exact Or.inl rfl
  · split
    · exact Or.inl rfl
    · refine Or.inr ?_
      cases p1 with
      | ok sid =>
          cases p2 with
          | ok sinfo =>
              dsimp only
              rw [map_update_append s.documents id _ _ rfl hfresh,
                  map_update_append s.documents id _ _ rfl hfresh,
                  map_update_append s.documents id _ _ rfl hfresh]
              refine ⟨_, ?_, ?_, rfl⟩ <;> rfl
          | okParseFail m =>
              dsimp only
              rw [map_update_append s.documents id _ _ rfl hfresh,
                  map_update_append s.documents id _ _ rfl hfresh,
                  map_update_append s.documents id _ _ rfl hfresh]
              refine ⟨_, ?_, ?_, rfl⟩ <;> rfl
          | netErr m =>
              dsimp only
              rw [map_update_append s.documents id _ _ rfl hfresh,
                  map_update_append s.documents id _ _ rfl hfresh,
                  map_update_append s.documents id _ _ rfl hfresh]
              refine ⟨_, ?_, ?_, rfl⟩ <;> rfl
          | notOk a b c =>
              dsimp only
              rw [map_update_append s.documents id _ _ rfl hfresh,
                  map_update_append s.documents id _ _ rfl hfresh,
                  map_update_append s.documents id _ _ rfl hfresh]
              refine ⟨_, ?_, ?_, rfl⟩ <;> rfl
      | netErr m =>
          dsimp only
          rw [map_update_append s.documents id _ _ rfl hfresh,
              map_update_append s.documents id _ _ rfl hfresh]
          refine ⟨_, ?_, ?_, rfl⟩ <;> rfl
      | notOk a b =>
          dsimp only
          rw [map_update_append s.documents id _ _ rfl hfresh,
              map_update_append s.documents id _ _ rfl hfresh]
          refine ⟨_, ?_, ?_, rfl⟩ <;> rfl
      | okParseFail m =>
          dsimp only
          rw [map_update_append s.documents id _ _ rfl hfresh,
              map_update_append s.documents id _ _ rfl hfresh]
          refine ⟨_, ?_, ?_, rfl⟩ <;> rfl

/-! ## Backend-status preservation (no operation but the health check
writes `backendStatus`) -/

theorem PartA.sendMessage_backendStatus_pa (s : PartA.State) (out : ChatOutcome)
    (t1 t2 : Nat) :
    (PartA.sendMessage s out t1 t2).1.backendStatus = s.backendStatus := by
  unfold PartA.sendMessage
  dsimp only
  split
  · rfl
  · split
    · rfl
    · cases out <;> rfl

theorem ChatApp.processFile_backendStatus (s : ChatApp.State) (file : JsFile)
    (id : String) (p1 : Phase1Outcome) (p2 : Phase2Outcome) :
    (ChatApp.processFile s file id p1 p2).1.backendStatus = s.backendStatus := by
  unfold ChatApp.processFile
  dsimp only
  split
  · rfl
  · split
    · rfl
    · cases p1 with
      | ok sid =>
          cases p2 with
          | ok sinfo => cases sinfo <;> rfl
          | netErr m => rfl
          | notOk a b c => rfl
          | okParseFail m => rfl
      | netErr m => rfl
      | notOk a b => rfl
      | okParseFail m => rfl

theorem PartA.processFile_backendStatus_pa (s : PartA.State) (file : JsFile)
    (id : String) (p1 : Phase1Outcome) (p2 : Phase2Outcome) :
    (PartA.processFile s file id p1 p2).1.backendStatus = s.backendStatus := by
  unfold PartA.processFile
  dsimp only
  split
  · rfl
  · split
    · rfl
    · cases p1 with
      | ok sid => cases p2 <;> rfl
      | netErr m => rfl
      | notOk a b => rfl
      | okParseFail m => rfl

theorem ChatApp.toggleSelection_backendStatus (s : ChatApp.State) (id : String)
    (uo : Option SessionInfo) :
    (ChatApp.toggleSelection s id uo).1.backendStatus = s.backendStatus := by
  unfold ChatApp.toggleSelection ChatApp.updateSessionInfo
  dsimp only
  split
  · rename_i d _
    cases d.sessionId with
    | some sid =>
        dsimp only
        split
        · cases uo <;> rfl
        · rfl
    | none => rfl
  · rfl

theorem ChatApp.removeDocument_backendStatus (s : ChatApp.State) (id : String)
    (sid : Option String) (out : DeleteOutcome) :
    (ChatApp.removeDocument s id sid out).1.backendStatus = s.backendStatus := by
  unfold ChatApp.removeDocument
  cases sid with
  | none => dsimp only; split <;> rfl
  | some v =>
      cases out with
      | ok => dsimp only; split <;> rfl
      | netErr m => rfl
      | notOk a b => rfl

theorem PartA.removeDocument_backendStatus_pa (s : PartA.State) (id : String)
    (sid : Option String) (out : DeleteOutcome) :
    (PartA.removeDocument s id sid out).1.backendStatus = s.backendStatus := by
  unfold PartA.removeDocument
  cases sid with
  | none => rfl
  | some v => cases out <;> rfl

/-! ## Reachable registry states

Each UI-driven operation of a component is one atomic transition; the
remote outcomes are chosen arbitrarily at each step.  The `upload` step
carries the code's implicit assumption that `Math.random` ids are fresh.
`tguard` is the precondition the rendering layer imposes on
`toggleSelection` invocations: the selection button is rendered with
`disabled={!doc.uploaded || !!doc.error}`, so the unguarded relation uses
a trivial guard and the guarded one demands exactly that the clicked
document is uploaded and error-free. -/

inductive ChatApp.StepG (tguard : ChatApp.State → String → Prop) :
    ChatApp.State → ChatApp.State → Prop where
  | health (s : ChatApp.State) (out : HealthOutcome) :
      ChatApp.StepG tguard s (ChatApp.checkHealth s out).1
  | send (s : ChatApp.State) (out : ChatOutcome) (uo : Option SessionInfo)
      (t1 t2 : Nat) :
      ChatApp.StepG tguard s (ChatApp.sendMessage s out uo t1 t2).1
  | upload (s : ChatApp.State) (file : JsFile) (id : String)
      (p1 : Phase1Outcome) (p2 : Phase2Outcome)
      (hfresh : ∀ d ∈ s.documents, d.id ≠ id) :
      ChatApp.StepG tguard s (ChatApp.processFile s file id p1 p2).1
  | toggle (s : ChatApp.State) (id : String) (uo : Option SessionInfo)
      (hg : tguard s id) :
      ChatApp.StepG tguard s (ChatApp.toggleSelection s id uo).1
  | remove (s : ChatApp.State) (id : String) (sid : Option String)
      (out : DeleteOutcome) :
      ChatApp.StepG tguard s (ChatApp.removeDocument s id sid out).1
  | edit (s : ChatApp.State) (v : String) :
      ChatApp.StepG tguard s { s with input := v }

/-- States reachable with no constraint on which documents get toggled. -/
def ChatApp.Reachable (s : ChatApp.State) : Prop :=
  Relation.ReflTransGen (ChatApp.StepG fun _ _ => True) ChatApp.initState s

/-- The selection affordance's `disabled` condition, as a precondition on
the id passed to `toggleSelection`. -/
def ChatApp.uiGuard (s : ChatApp.State) (id : String) : Prop :=
  ∀ d ∈ s.documents, d.id = id → d.uploaded = true ∧ d.error = none

/-- States reachable when `toggleSelection` is only invoked through the
enabled selection button. -/
def ChatApp.GReachable (s : ChatApp.State) : Prop :=
  Relation.ReflTransGen (ChatApp.StepG ChatApp.uiGuard) ChatApp.initState s

inductive PartA.StepG (tguard : PartA.State → String → Prop) :
    PartA.State → PartA.State → Prop where
  | health (s : PartA.State) (out : HealthOutcome) :
      PartA.StepG tguard s (PartA.checkHealth s out).1
  | send (s : PartA.State) (out : ChatOutcome) (t1 t2 : Nat) :
      PartA.StepG tguard s (PartA.sendMessage s out t1 t2).1
  | upload (s : PartA.State) (file : JsFile) (id : String)
      (p1 : Phase1Outcome) (p2 : Phase2Outcome)
      (hfresh : ∀ d ∈ s.documents, d.id ≠ id) :
      PartA.StepG tguard s (PartA.processFile s file id p1 p2).1
  | toggle (s : PartA.State) (id : String) (hg : tguard s id) :
      PartA.StepG tguard s (PartA.toggleSelection s id)
  | remove (s : PartA.State) (id : String) (sid : Option String)
      (out : DeleteOutcome) :
      PartA.StepG tguard s (PartA.removeDocument s id sid out).1
  | edit (s : PartA.State) (v : String) :
      PartA.StepG tguard s { s with input := v }

/-- States of the simpler variant reachable with unconstrained toggles. -/
def PartA.Reachable (s : PartA.State) : Prop :=
  Relation.ReflTransGen (PartA.StepG fun _ _ => True) PartA.initState s

/-- The selection affordance's `disabled` condition of the simpler variant
(same rendering code). -/
def PartA.uiGuard (s : PartA.State) (id : String) : Prop :=
  ∀ d ∈ s.documents, d.id = id → d.uploaded = true ∧ d.error = none

/-- States of the simpler variant reachable through the enabled selection
button only. -/
def PartA.GReachable (s : PartA.State) : Prop :=
  Relation.ReflTransGen (PartA.StepG PartA.uiGuard) PartA.initState s

/-! ## Invariant preservation -/

theorem ChatApp.RegInv_step {tguard : ChatApp.State → String → Prop}
    {s s' : ChatApp.State} (h : ChatApp.StepG tguard s s')
    (hinv : RegInv s.documents) : RegInv s'.documents := by
  cases h with
  | health out => rw [ChatApp.checkHealth_documents]; exact hinv
  | send out uo t1 t2 => rw [ChatApp.sendMessage_documents]; exact hinv
  | upload file id p1 p2 hfresh =>
      rcases ChatApp.processFile_documents_cases s file id p1 p2 hfresh with
        heq | ⟨d', hid, hsel, heq⟩
      · rw [heq]; exact hinv
      · rw [heq]
        refine ⟨idsNodup_append hinv.1 ?_, atMostOne_append hinv.2 hsel⟩
        intro d hd
        rw [hid]
        exact hfresh d hd
  | toggle id uo hg =>
      rw [ChatApp.toggleSelection_documents]
      exact ⟨idsNodup_map _ hinv.1 (fun d _ => rfl), toggle_atMostOne hinv.1 id⟩
  | remove id sid out =>
      rcases ChatApp.removeDocument_documents_cases s id sid out with heq | heq
      · rw [heq]; exact RegInv_filter _ hinv
      · rw [heq]; exact hinv
  | edit v => exact hinv

theorem PartA.RegInv_step_pa {tguard : PartA.State → String → Prop}
    {s s' : PartA.State} (h : PartA.StepG tguard s s')
    (hinv : RegInv s.documents) : RegInv s'.documents := by
  cases h with
  | health out => rw [PartA.checkHealth_documents_pa]; exact hinv
  | send out t1 t2 => rw [PartA.sendMessage_documents_pa]; exact hinv
  | upload file id p1 p2 hfresh =>
      rcases PartA.processFile_documents_cases_pa s file id p1 p2 hfresh with
        heq | ⟨d', hid, hsel, heq⟩
      · rw [heq]; exact hinv
      · rw [heq]
        refine ⟨idsNodup_append hinv.1 ?_, atMostOne_append hinv.2 hsel⟩
        intro d hd
        rw [hid]
        exact hfresh d hd
  | toggle id hg =>
      rw [PartA.toggleSelection_documents_pa]
      exact ⟨idsNodup_map _ hinv.1 (fun d _ => rfl), toggle_atMostOne hinv.1 id⟩
  | remove id sid out =>
      rcases PartA.removeDocument_documents_cases_pa s id sid out with heq | heq
      · rw [heq]; exact RegInv_filter _ hinv
      · rw [heq]; exact hinv
  | edit v => exact hinv

theorem ChatApp.selInv_step {s s' : ChatApp.State}
    (h : ChatApp.StepG ChatApp.uiGuard s s')
    (hinv : selImpliesUsable s.documents) : selImpliesUsable s'.documents := by
  cases h with
  | health out => rw [ChatApp.checkHealth_documents]; exact hinv
  | send out uo t1 t2 => rw [ChatApp.sendMessage_documents]; exact hinv
  | upload file id p1 p2 hfresh =>
      rcases ChatApp.processFile_documents_cases s file id p1 p2 hfresh with
        heq | ⟨d', hid, hsel, heq⟩
      · rw [heq]; exact hinv
      · rw [heq]; exact selImpliesUsable_append hinv hsel
  | toggle id uo hg =>
      rw [ChatApp.toggleSelection_documents]
      intro d hd hdsel
      obtain ⟨e, he, rfl⟩ := List.mem_map.1 hd
      have hsel' : (e.id == id && !e.selected) = true := hdsel
      have hid : e.id = id := by
        have := ((Bool.and_eq_true _ _).mp hsel').1
        simpa using this
      exact hg e he hid
  | remove id sid out =>
      rcases ChatApp.removeDocument_documents_cases s id sid out with heq | heq
      · rw [heq]; exact selImpliesUsable_filter _ hinv
      · rw [heq]; exact hinv
  | edit v => exact hinv

theorem PartA.selInv_step_pa {s s' : PartA.State}
    (h : PartA.StepG PartA.uiGuard s s')
    (hinv : selImpliesUsable s.documents) : selImpliesUsable s'.documents := by
  cases h with
  | health out => rw [PartA.checkHealth_documents_pa]; exact hinv
  | send out t1 t2 => rw [PartA.sendMessage_documents_pa]; exact hinv
  | upload file id p1 p2 hfresh =>
      rcases PartA.processFile_documents_cases_pa s file id p1 p2 hfresh with
        heq | ⟨d', hid, hsel, heq⟩
      · rw [heq]; exact hinv
      · rw [heq]; exact selImpliesUsable_append hinv hsel
  | toggle id hg =>
      rw [PartA.toggleSelection_documents_pa]
      intro d hd hdsel
      obtain ⟨e, he, rfl⟩ := List.mem_map.1 hd
      have hsel' : (e.id == id && !e.selected) = true := hdsel
      have hid : e.id = id := by
        have := ((Bool.and_eq_true _ _).mp hsel').1
        simpa using this
      exact hg e he hid
  | remove id sid out =>
      rcases PartA.removeDocument_documents_cases_pa s id sid out with heq | heq
      · rw [heq]; exact selImpliesUsable_filter _ hinv
      · rw [heq]; exact hinv
  | edit v => exact hinv

/-! ## Concrete example states used by witnesses and counterexamples -/

/-- A 2 MiB PDF file, accepted by validation. -/
def exFile : JsFile := { name := "report.pdf", type := "application/pdf", size := 2097152 }

/-- Registry state after one fully successful upload of `exFile`. -/
def exS1 : ChatApp.State :=
  (ChatApp.processFile ChatApp.initState exFile "doc1" (.ok "s1") (.ok none)).1

/-- `exS1` after clicking the (enabled) selection button of the uploaded
document. -/
def exS2 : ChatApp.State := (ChatApp.toggleSelection exS1 "doc1" none).1

theorem exS2_greachable : ChatApp.GReachable exS2 := by
  have h1 : ChatApp.StepG ChatApp.uiGuard ChatApp.initState exS1 :=
    ChatApp.StepG.upload ChatApp.initState exFile "doc1" (.ok "s1") (.ok none)
      (by intro d hd; simp [ChatApp.initState] at hd)
  have h2 : ChatApp.StepG ChatApp.uiGuard exS1 exS2 :=
    ChatApp.StepG.toggle exS1 "doc1" none (by unfold ChatApp.uiGuard; decide)
  exact Relation.ReflTransGen.tail
    (Relation.ReflTransGen.tail Relation.ReflTransGen.refl h1) h2

theorem exS2_reachable : ChatApp.Reachable exS2 := by
  have h1 : ChatApp.StepG (fun _ _ => True) ChatApp.initState exS1 :=
    ChatApp.StepG.upload ChatApp.initState exFile "doc1" (.ok "s1") (.ok none)
      (by intro d hd; simp [ChatApp.initState] at hd)
  have h2 : ChatApp.StepG (fun _ _ => True) exS1 exS2 :=
    ChatApp.StepG.toggle exS1 "doc1" none trivial
  exact Relation.ReflTransGen.tail
    (Relation.ReflTransGen.tail Relation.ReflTransGen.refl h1) h2

/-- The uploaded, selected document of `exS2`. -/
def exSelDoc : Document :=
  { id := "doc1", name := "report.pdf", size := 2097152, uploaded := true,
    progress := 100, selected := true, sessionId := some "s1", error := none }

/-- An uploaded document holding a remote session id. -/
def c1Doc : Document :=
  { id := "d1", name := "r.pdf", size := 100, uploaded := true, progress := 100,
    selected := false, sessionId := some "s1", error := none }

/-- Richer-variant state holding just `c1Doc`. -/
def c1StateA : ChatApp.State := { documents := [c1Doc] }

/-- Simpler-variant state holding just `c1Doc`. -/
def c1StateP : PartA.State := { documents := [c1Doc] }

/-- A document whose upload is still in flight. -/
def c2PendingDoc : Document :=
  { id := "p1", name := "w.pdf", size := 9, uploaded := false, progress := 25,
    selected := false, sessionId := none, error := none }

/-- Richer-variant state holding just the pending `c2PendingDoc`. -/
def c2CexState : ChatApp.State := { documents := [c2PendingDoc] }

/-! ## Claims -/

/-- C1 (counterexample): in the simpler variant, a network error during
the `/clear-session` teardown does NOT restore the registry to its
pre-removal snapshot — the document stays removed (only a non-2xx
response triggers the restore), even though the error banner is set.  The
claim asserts the snapshot is restored for a network error as well; here
the registry afterwards is `[]`, not the snapshot `[c1Doc]`. -/
theorem c1_remove_rollback_cex :
    (PartA.removeDocument c1StateP "d1" (some "s1") (.netErr "boom")).1.documents = [] ∧
    c1StateP.documents = [c1Doc] ∧
    (PartA.removeDocument c1StateP "d1" (some "s1") (.netErr "boom")).1.apiError
      = "Remove failed: boom" := by
  refine ⟨by decide, rfl, by decide⟩

/-- C1 (amended): in the richer variant, every failing teardown call
(non-2xx or network error) leaves the state exactly at the pre-removal
snapshot with the error banner set; in the simpler variant this holds for
a non-2xx response, while a network error sets the banner but leaves the
document removed.  On success the document is absent from the registry in
both variants. -/
theorem c1_remove_rollback_amended :
    (∀ (s : ChatApp.State) (id sid : String) (out : DeleteOutcome),
        out.isFailure = true →
        ChatApp.removeDocument s id (some sid) out =
          ({ s with apiError := s!"Failed to remove document: {ChatApp.deleteErrMsg out}" },
           [Request.clearSession sid])) ∧
    (∀ (s : PartA.State) (id sid : String) (status : Nat) (ef : Option String),
        PartA.removeDocument s id (some sid) (.notOk status ef) =
          ({ s with apiError := s!"Remove failed: Delete failed ({status})" },
           [Request.clearSession sid])) ∧
    (∀ (s : PartA.State) (id sid m : String),
        PartA.removeDocument s id (some sid) (.netErr m) =
          ({ s with documents := s.documents.filter fun (d : Document) => d.id != id,
                    apiError := s!"Remove failed: {m}" },
           [Request.clearSession sid])) ∧
    (∀ (s : ChatApp.State) (id sid : String),
        (ChatApp.removeDocument s id (some sid) .ok).1.documents
          = s.documents.filter fun (d : Document) => d.id != id) ∧
    (∀ (s : PartA.State) (id sid : String),
        (PartA.removeDocument s id (some sid) .ok).1.documents
          = s.documents.filter fun (d : Document) => d.id != id) := by
  refine ⟨?_, ?_, ?_, ?_, ?_⟩
  · intro s id sid out hfail
    cases out with
    | ok => simp [DeleteOutcome.isFailure] at hfail
    | netErr m => rfl
    | notOk a b => rfl
  · intro s id sid status ef
    rfl
  · intro s id sid m
    rfl
  · intro s id sid
    unfold ChatApp.removeDocument
    dsimp only
    split <;> rfl
  · intro s id sid
    rfl

/-- C1 (witness): concrete evaluations of the amended statement. -/
theorem c1_remove_rollback_witness :
    (ChatApp.removeDocument c1StateA "d1" (some "s1") (.netErr "boom")).1.documents
        = c1StateA.documents ∧
    (ChatApp.removeDocument c1StateA "d1" (some "s1") (.netErr "boom")).1.apiError
        = "Failed to remove document: boom" ∧
    (PartA.removeDocument c1StateP "d1" (some "s1") (.notOk 500 none)).1.documents
        = c1StateP.documents ∧
    (PartA.removeDocument c1StateP "d1" (some "s1") .ok).1.documents = [] := by
  have h := c1_remove_rollback_amended
  refine ⟨?_, ?_, ?_, ?_⟩
  · rw [h.1 c1StateA "d1" "s1" (.netErr "boom") rfl]
  · rw [h.1 c1StateA "d1" "s1" (.netErr "boom") rfl]
    decide
  · rw [h.2.1 c1StateP "d1" "s1" 500 none]
  · rw [h.2.2.2.2 c1StateP "d1" "s1"]
    decide

/-- C2 (counterexample): `toggleSelection` performs no upload-state check;
invoked on the id of a document that is still uploading it selects that
document, so it is not a no-op on the registry and the resulting registry
violates `selected → uploaded`. -/
theorem c2_selection_noop_cex :
    (ChatApp.toggleSelection c2CexState "p1" none).1.documents
        = [{ c2PendingDoc with selected := true }] ∧
    (ChatApp.toggleSelection c2CexState "p1" none).1.documents ≠ c2CexState.documents ∧
    ({ c2PendingDoc with selected := true } : Document).uploaded = false := by
  refine ⟨by decide, by decide, rfl⟩

/-- C2 (amended): `toggleSelection` itself does not reject non-uploaded
documents; the guard lives in the control surface, whose selection button
is rendered with `disabled={!doc.uploaded || !!doc.error}`.  When
`toggleSelection` is only invoked under that guard, every reachable
registry state satisfies: selected implies uploaded and no error — in
both variants. -/
theorem c2_selection_invariant_amended :
    (∀ s : ChatApp.State, ChatApp.GReachable s →
        ∀ d ∈ s.documents, d.selected = true → d.uploaded = true ∧ d.error = none) ∧
    (∀ s : PartA.State, PartA.GReachable s →
        ∀ d ∈ s.documents, d.selected = true → d.uploaded = true ∧ d.error = none) := by
  constructor
  · intro s h
    have hinv : selImpliesUsable s.documents := by
      induction h with
      | refl => intro d hd; simp [ChatApp.initState] at hd
      | tail hr hstep ih => exact ChatApp.selInv_step hstep ih
    exact hinv
  · intro s h
    have hinv : selImpliesUsable s.documents := by
      induction h with
      | refl => intro d hd; simp [PartA.initState] at hd
      | tail hr hstep ih => exact PartA.selInv_step_pa hstep ih
    exact hinv

/-- C2 (witness): the selected document of the concrete guarded-reachable
state `exS2` is uploaded and error-free. -/
theorem c2_selection_invariant_witness :
    exSelDoc.uploaded = true ∧ exSelDoc.error = none :=
  c2_selection_invariant_amended.1 exS2 exS2_greachable exSelDoc (by decide) rfl

/-- C3: in every registry state reachable from the empty registry through
the component's operations (upload with fresh ids, toggleSelection,
removeDocument including rollback, sendMessage, health check, input
edits), at most one document is selected — in both variants. -/
theorem c3_at_most_one_selected :
    (∀ s : ChatApp.State, ChatApp.Reachable s →
        s.documents.countP (fun d => d.selected) ≤ 1) ∧
    (∀ s : PartA.State, PartA.Reachable s →
        s.documents.countP (fun d => d.selected) ≤ 1) := by
  constructor
  · intro s h
    have hinv : RegInv s.documents := by
      induction h with
      | refl =>
          refine ⟨?_, ?_⟩ <;> simp [idsNodup, atMostOneSelected, ChatApp.initState]
      | tail hr hstep ih => exact ChatApp.RegInv_step hstep ih
    exact hinv.2
  · intro s h
    have hinv : RegInv s.documents := by
      induction h with
      | refl =>
          refine ⟨?_, ?_⟩ <;> simp [idsNodup, atMostOneSelected, PartA.initState]
      | tail hr hstep ih => exact PartA.RegInv_step_pa hstep ih
    exact hinv.2

/-- C3 (witness): the selection count of the concrete reachable state
`exS2` (one uploaded document, selected) is at most one. -/
theorem c3_at_most_one_selected_witness :
    exS2.documents.countP (fun d => d.selected) ≤ 1 :=
  c3_at_most_one_selected.1 exS2 exS2_reachable

/-- C4: when the preconditions hold (some document is selected and
uploaded, and the input is not blank), `sendMessage` grows the transcript
by exactly two messages — the user message carrying the question first,
then an assistant ("bot") message — whatever the remote outcome. -/
theorem c4_ask_appends_two :
    (∀ (s : ChatApp.State) (sel : Document) (out : ChatOutcome)
        (uo : Option SessionInfo) (t1 t2 : Nat),
        s.documents.find? (fun d => d.selected && d.uploaded) = some sel →
        jsTrim s.input ≠ "" →
        ∃ bot : ChatApp.Message, bot.role = .bot ∧
          (ChatApp.sendMessage s out uo t1 t2).1.messages =
            s.messages ++
              [{ role := .user, content := s.input, timestamp := t1 }, bot]) ∧
    (∀ (s : PartA.State) (sel : Document) (out : ChatOutcome) (t1 t2 : Nat),
        s.documents.find? (fun d => d.selected && d.uploaded) = some sel →
        jsTrim s.input ≠ "" →
        ∃ bot : PartA.Message, bot.role = .bot ∧
          (PartA.sendMessage s out t1 t2).1.messages =
            s.messages ++
              [{ role := .user, content := s.input, timestamp := t1 }, bot]) := by
  constructor
  · intro s sel out uo t1 t2 hfind htrim
    unfold ChatApp.sendMessage ChatApp.updateSessionInfo
    dsimp only
    rw [hfind, if_neg htrim]
    cases out with
    | ok answer sources =>
        refine ⟨{ role := .bot, content := answer.getD "No response received",
                  timestamp := t2, sources := sources.getD [] }, rfl, ?_⟩
        cases hsid : sel.sessionId with
        | none => simp [hsid]
        | some sid => cases uo <;> simp [hsid]
    | netErr m =>
        exact ⟨{ role := .bot, content := ChatApp.apology, timestamp := t2 },
               rfl, by simp⟩
    | notOk a b c =>
        exact ⟨{ role := .bot, content := ChatApp.apology, timestamp := t2 },
               rfl, by simp⟩
    | okParseFail m =>
        exact ⟨{ role := .bot, content := ChatApp.apology, timestamp := t2 },
               rfl, by simp⟩
  · intro s sel out t1 t2 hfind htrim
    unfold PartA.sendMessage
    dsimp only
    rw [hfind, if_neg htrim]
    cases out with
    | ok answer sources =>
        exact ⟨{ role := .bot, content := answer.getD "No response received",
                 timestamp := t2 }, rfl, by simp⟩
    | netErr m =>
        exact ⟨{ role := .bot, content := PartA.apology, timestamp := t2 },
               rfl, by simp⟩
    | notOk a b c =>
        exact ⟨{ role := .bot, content := PartA.apology, timestamp := t2 },
               rfl, by simp⟩
    | okParseFail m =>
        exact ⟨{ role := .bot, content := PartA.apology, timestamp := t2 },
               rfl, by simp⟩

/-- C4 (witness): concrete successful ask grows the transcript by two. -/
theorem c4_ask_appends_two_witness :
    (ChatApp.sendMessage { exS2 with input := "What is the summary?" }
        (.ok (some "It is a summary.") none) none 1 2).1.messages.length
      = exS2.messages.length + 2 := by
  obtain ⟨bot, hrole, hmsgs⟩ :=
    c4_ask_appends_two.1 { exS2 with input := "What is the summary?" } exSelDoc
      (.ok (some "It is a summary.") none) none 1 2 (by decide) (by decide)
  rw [hmsgs]
  simp

/-- C5: when the preconditions hold, `loading` is false after every
outcome; on every failing outcome (network error, non-2xx, or 2xx with
unparsable body), the transcript gains the user message followed by the
fixed apology message, while the error banner separately holds the
underlying error string computed from the failure. -/
theorem c5_ask_failure_shape :
    (∀ (s : ChatApp.State) (sel : Document) (out : ChatOutcome)
        (uo : Option SessionInfo) (t1 t2 : Nat),
        s.documents.find? (fun d => d.selected && d.uploaded) = some sel →
        jsTrim s.input ≠ "" →
        (ChatApp.sendMessage s out uo t1 t2).1.loading = false ∧
        (out.isFailure = true →
          (ChatApp.sendMessage s out uo t1 t2).1.messages =
            s.messages ++
              [{ role := .user, content := s.input, timestamp := t1 },
               { role := .bot, content := ChatApp.apology, timestamp := t2 }] ∧
          (ChatApp.sendMessage s out uo t1 t2).1.apiError
            = ChatApp.chatErrorMessage out)) ∧
    (∀ (s : PartA.State) (sel : Document) (out : ChatOutcome) (t1 t2 : Nat),
        s.documents.find? (fun d => d.selected && d.uploaded) = some sel →
        jsTrim s.input ≠ "" →
        (PartA.sendMessage s out t1 t2).1.loading = false ∧
        (out.isFailure = true →
          (PartA.sendMessage s out t1 t2).1.messages =
            s.messages ++
              [{ role := .user, content := s.input, timestamp := t1 },
               { role := .bot, content := PartA.apology, timestamp := t2 }] ∧
          (PartA.sendMessage s out t1 t2).1.apiError
            = PartA.chatErrorMessage out)) := by
  constructor
  · intro s sel out uo t1 t2 hfind htrim
    unfold ChatApp.sendMessage ChatApp.updateSessionInfo
    dsimp only
    rw [hfind, if_neg htrim]
    cases out with
    | ok answer sources =>
        refine ⟨?_, by intro hfail; simp [ChatOutcome.isFailure] at hfail⟩
        cases hsid : sel.sessionId with
        | none => simp [hsid]
        | some sid => cases uo <;> simp [hsid]
    | netErr m => exact ⟨rfl, fun _ => ⟨by simp, rfl⟩⟩
    | notOk a b c => exact ⟨rfl, fun _ => ⟨by simp, rfl⟩⟩
    | okParseFail m => exact ⟨rfl, fun _ => ⟨by simp, rfl⟩⟩
  · intro s sel out t1 t2 hfind htrim
    unfold PartA.sendMessage
    dsimp only
    rw [hfind, if_neg htrim]
    cases out with
    | ok answer sources =>
        exact ⟨rfl, by intro hfail; simp [ChatOutcome.isFailure] at hfail⟩
    | netErr m => exact ⟨rfl, fun _ => ⟨by simp, rfl⟩⟩
    | notOk a b c => exact ⟨rfl, fun _ => ⟨by simp, rfl⟩⟩
    | okParseFail m => exact ⟨rfl, fun _ => ⟨by simp, rfl⟩⟩

/-- C5 (witness): a concrete failing ask (HTTP 500 with unparsable error
body) leaves loading false, appends the apology, and sets the banner to
the status line. -/
theorem c5_ask_failure_shape_witness :
    (ChatApp.sendMessage { exS2 with input := "Q" }
        (.notOk 500 "Internal Server Error" none) none 1 2).1.loading = false ∧
    (ChatApp.sendMessage { exS2 with input := "Q" }
        (.notOk 500 "Internal Server Error" none) none 1 2).1.apiError
      = "500: Internal Server Error" := by
  have h := c5_ask_failure_shape.1 { exS2 with input := "Q" } exSelDoc
    (.notOk 500 "Internal Server Error" none) none 1 2 (by decide) (by decide)
  refine ⟨h.1, ?_⟩
  rw [(h.2 rfl).2]
  decide

/-- C6: with no selected-and-uploaded document, or with a
blank/whitespace-only question, `sendMessage` is a silent no-op: the
whole state is unchanged and no request is issued. -/
theorem c6_ask_noop :
    (∀ (s : ChatApp.State) (out : ChatOutcome) (uo : Option SessionInfo)
        (t1 t2 : Nat),
        (jsTrim s.input = "" ∨
          s.documents.find? (fun d => d.selected && d.uploaded) = none) →
        ChatApp.sendMessage s out uo t1 t2 = (s, [])) ∧
    (∀ (s : PartA.State) (out : ChatOutcome) (t1 t2 : Nat),
        (jsTrim s.input = "" ∨
          s.documents.find? (fun d => d.selected && d.uploaded) = none) →
        PartA.sendMessage s out t1 t2 = (s, [])) := by
  constructor
  · intro s out uo t1 t2 h
    unfold ChatApp.sendMessage
    dsimp only
    rcases h with h | h
    · rw [if_pos h]
    · rw [h]
      split <;> rfl
  · intro s out t1 t2 h
    unfold PartA.sendMessage
    dsimp only
    rcases h with h | h
    · rw [if_pos h]
    · rw [h]
      split <;> rfl

/-- C6 (witness): a whitespace-only question in a state with a selected
document, and a non-blank question with no selected document, both
change nothing. -/
theorem c6_ask_noop_witness :
    ChatApp.sendMessage { exS2 with input := "   " } (.ok (some "a") none) none 1 2
      = ({ exS2 with input := "   " }, []) ∧
    PartA.sendMessage { PartA.initState with input := "hi" } (.netErr "x") 1 2
      = ({ PartA.initState with input := "hi" }, []) := by
  constructor
  · exact c6_ask_noop.1 { exS2 with input := "   " } (.ok (some "a") none) none 1 2
      (Or.inl (by decide))
  · exact c6_ask_noop.2 { PartA.initState with input := "hi" } (.netErr "x") 1 2
      (Or.inr (by decide))

/-- C7: when validation passes but the phase-1 `/create-session` call
fails (network error, non-2xx, or 2xx body that fails to parse), the
created document ends with `progress = 0`, `uploaded = false` and its
error message set, and the only request issued is the create-session one
— `/upload-pdf` is never called.  The fresh-id hypothesis is the code's
`Math.random` assumption. -/
theorem c7_phase1_failure :
    (∀ (s : ChatApp.State) (file : JsFile) (id : String) (p1 : Phase1Outcome)
        (p2 : Phase2Outcome),
        (∀ d ∈ s.documents, d.id ≠ id) →
        file.type = "application/pdf" → file.size ≤ 10 * 1024 * 1024 →
        p1.isFailure = true →
        (ChatApp.processFile s file id p1 p2).1.documents =
          s.documents ++
            [{ id := id, name := file.name, size := file.size, uploaded := false,
               progress := 0, selected := false, sessionId := none,
               error := some (ChatApp.sessionErrMsg p1) }] ∧
        (ChatApp.processFile s file id p1 p2).2 = [Request.createSession]) ∧
    (∀ (s : PartA.State) (file : JsFile) (id : String) (p1 : Phase1Outcome)
        (p2 : Phase2Outcome),
        (∀ d ∈ s.documents, d.id ≠ id) →
        file.type = "application/pdf" → file.size ≤ 10 * 1024 * 1024 →
        p1.isFailure = true →
        (PartA.processFile s file id p1 p2).1.documents =
          s.documents ++
            [{ id := id, name := file.name, size := file.size, uploaded := false,
               progress := 0, selected := false, sessionId := none,
               error := some s!"Failed: {PartA.sessionErrMsg p1}" }] ∧
        (PartA.processFile s file id p1 p2).2 = [Request.createSession]) := by
  constructor
  · intro s file id p1 p2 hfresh htype hsize hfail
    unfold ChatApp.processFile
    dsimp only
    rw [if_neg (not_not_intro htype), if_neg (by omega)]
    cases p1 with
    | ok sid => simp [Phase1Outcome.isFailure] at hfail
    | netErr m =>
        dsimp only
        rw [map_update_append s.documents id _ _ rfl hfresh,
            map_update_append s.documents id _ _ rfl hfresh]
        exact ⟨rfl, rfl⟩
    | notOk a b =>
        dsimp only
        rw [map_update_append s.documents id _ _ rfl hfresh,
            map_update_append s.documents id _ _ rfl hfresh]
        exact ⟨rfl, rfl⟩
    | okParseFail m =>
        dsimp only
        rw [map_update_append s.documents id _ _ rfl hfresh,
            map_update_append s.documents id _ _ rfl hfresh]
        exact ⟨rfl, rfl⟩
  · intro s file id p1 p2 hfresh htype hsize hfail
    unfold PartA.processFile
    dsimp only
    rw [if_neg (not_not_intro htype), if_neg (by omega)]
    cases p1 with
    | ok sid => simp [Phase1Outcome.isFailure] at hfail
    | netErr m =>
        dsimp only
        rw [map_update_append s.documents id _ _ rfl hfresh,
            map_update_append s.documents id _ _ rfl hfresh]
        exact ⟨rfl, rfl⟩
    | notOk a b =>
        dsimp only
        rw [map_update_append s.documents id _ _ rfl hfresh,
            map_update_append s.documents id _ _ rfl hfresh]
        exact ⟨rfl, rfl⟩
    | okParseFail m =>
        dsimp only
        rw [map_update_append s.documents id _ _ rfl hfresh,
            map_update_append s.documents id _ _ rfl hfresh]
        exact ⟨rfl, rfl⟩

/-- C7 (witness): a concrete phase-1 non-2xx failure on an empty registry. -/
theorem c7_phase1_failure_witness :
    (ChatApp.processFile ChatApp.initState exFile "doc9" (.notOk 503 none)
        (.ok none)).1.documents =
      [{ id := "doc9", name := "report.pdf", size := 2097152, uploaded := false,
         progress := 0, selected := false, sessionId := none,
         error := some (ChatApp.sessionErrMsg (.notOk 503 none)) }] ∧
    (ChatApp.processFile ChatApp.initState exFile "doc9" (.notOk 503 none)
        (.ok none)).2 = [Request.createSession] := by
  have h := c7_phase1_failure.1 ChatApp.initState exFile "doc9" (.notOk 503 none)
    (.ok none) (by intro d hd; simp [ChatApp.initState] at hd) rfl (by decide) rfl
  exact ⟨by rw [h.1]; decide, h.2⟩

/-- A 12 MiB PDF, rejected by the size check. -/
def bigFile : JsFile := { name := "big.pdf", type := "application/pdf", size := 12582912 }

/-- A non-PDF file, rejected by the type check. -/
def txtFile : JsFile := { name := "notes.txt", type := "text/plain", size := 10 }

/-- C8: a file with a non-PDF MIME type or a size above 10 MiB creates no
document (the whole state is unchanged except for the validation message
placed in the error banner) and issues no request. -/
theorem c8_validation_reject :
    (∀ (s : ChatApp.State) (file : JsFile) (id : String) (p1 : Phase1Outcome)
        (p2 : Phase2Outcome),
        file.type ≠ "application/pdf" ∨ file.size > 10 * 1024 * 1024 →
        ChatApp.processFile s file id p1 p2 =
          ({ s with apiError :=
              if file.type ≠ "application/pdf" then ChatApp.notPdfMsg file.name
              else ChatApp.tooLargeMsg file.name }, [])) ∧
    (∀ (s : PartA.State) (file : JsFile) (id : String) (p1 : Phase1Outcome)
        (p2 : Phase2Outcome),
        file.type ≠ "application/pdf" ∨ file.size > 10 * 1024 * 1024 →
        PartA.processFile s file id p1 p2 =
          ({ s with apiError :=
              if file.type ≠ "application/pdf" then PartA.notPdfMsg
              else PartA.tooLargeMsg file.name }, [])) := by
  constructor
  · intro s file id p1 p2 h
    by_cases htype : file.type ≠ "application/pdf"
    · unfold ChatApp.processFile
      dsimp only
      simp only [if_pos htype]
    · have hsize : file.size > 10 * 1024 * 1024 := h.resolve_left htype
      unfold ChatApp.processFile
      dsimp only
      simp only [if_neg htype, if_pos hsize]
  · intro s file id p1 p2 h
    by_cases htype : file.type ≠ "application/pdf"
    · unfold PartA.processFile
      dsimp only
      simp only [if_pos htype]
    · have hsize : file.size > 10 * 1024 * 1024 := h.resolve_left htype
      unfold PartA.processFile
      dsimp only
      simp only [if_neg htype, if_pos hsize]

/-- C8 (witness): the 12 MiB file and the text file are both rejected with
their validation messages and no request. -/
theorem c8_validation_reject_witness :
    ChatApp.processFile ChatApp.initState bigFile "x" (.ok "s") (.ok none)
      = ({ ChatApp.initState with apiError := ChatApp.tooLargeMsg "big.pdf" }, []) ∧
    PartA.processFile PartA.initState txtFile "x" (.ok "s") (.ok none)
      = ({ PartA.initState with apiError := PartA.notPdfMsg }, []) := by
  constructor
  · rw [c8_validation_reject.1 ChatApp.initState bigFile "x" (.ok "s") (.ok none)
        (Or.inr (by decide))]
    decide
  · rw [c8_validation_reject.2 PartA.initState txtFile "x" (.ok "s") (.ok none)
        (Or.inl (by decide))]
    decide

/-- C9 (counterexample): in the richer variant a 200/OK liveness response
whose body fails to parse as JSON yields "unhealthy", not "healthy" as
the claim asserts for every 200/OK response. -/
theorem c9_health_cex :
    (ChatApp.checkHealth ChatApp.initState (.response true 200 false)).1.backendStatus
      = BackendStatus.unhealthy := rfl

/-- C9 (amended): the status starts as unknown; after the check it is
never unknown again (no other operation writes it).  The simpler variant
maps every ok response to healthy; the richer variant maps an ok response
to healthy only when its body parses as JSON, and to unhealthy otherwise;
both map non-ok responses and network errors to unhealthy. -/
theorem c9_health_tristate_amended :
    ChatApp.initState.backendStatus = BackendStatus.unknown ∧
    PartA.initState.backendStatus = BackendStatus.unknown ∧
    (∀ (s : ChatApp.State) (st : Nat) (bp : Bool),
        (ChatApp.checkHealth s (.response true st bp)).1.backendStatus
          = (if bp then BackendStatus.healthy else BackendStatus.unhealthy) ∧
        (ChatApp.checkHealth s (.response false st bp)).1.backendStatus
          = BackendStatus.unhealthy ∧
        (ChatApp.checkHealth s .netErr).1.backendStatus = BackendStatus.unhealthy) ∧
    (∀ (s : PartA.State) (st : Nat) (bp : Bool),
        (PartA.checkHealth s (.response true st bp)).1.backendStatus
          = BackendStatus.healthy ∧
        (PartA.checkHealth s (.response false st bp)).1.backendStatus
          = BackendStatus.unhealthy ∧
        (PartA.checkHealth s .netErr).1.backendStatus = BackendStatus.unhealthy) ∧
    (∀ (s : ChatApp.State) (out : HealthOutcome),
        (ChatApp.checkHealth s out).1.backendStatus ≠ BackendStatus.unknown) ∧
    (∀ (s : PartA.State) (out : HealthOutcome),
        (PartA.checkHealth s out).1.backendStatus ≠ BackendStatus.unknown) ∧
    (∀ (s : ChatApp.State) (out : ChatOutcome) (uo : Option SessionInfo)
        (t1 t2 : Nat),
        (ChatApp.sendMessage s out uo t1 t2).1.backendStatus = s.backendStatus) ∧
    (∀ (s : ChatApp.State) (file : JsFile) (id : String) (p1 : Phase1Outcome)
        (p2 : Phase2Outcome),
        (ChatApp.processFile s file id p1 p2).1.backendStatus = s.backendStatus) ∧
    (∀ (s : ChatApp.State) (id : String) (uo : Option SessionInfo),
        (ChatApp.toggleSelection s id uo).1.backendStatus = s.backendStatus) ∧
    (∀ (s : ChatApp.State) (id : String) (sid : Option String)
        (out : DeleteOutcome),
        (ChatApp.removeDocument s id sid out).1.backendStatus = s.backendStatus) ∧
    (∀ (s : PartA.State) (out : ChatOutcome) (t1 t2 : Nat),
        (PartA.sendMessage s out t1 t2).1.backendStatus = s.backendStatus) ∧
    (∀ (s : PartA.State) (file : JsFile) (id : String) (p1 : Phase1Outcome)
        (p2 : Phase2Outcome),
        (PartA.processFile s file id p1 p2).1.backendStatus = s.backendStatus) ∧
    (∀ (s : PartA.State) (id : String),
        (PartA.toggleSelection s id).backendStatus = s.backendStatus) ∧
    (∀ (s : PartA.State) (id : String) (sid : Option String)
        (out : DeleteOutcome),
        (PartA.removeDocument s id sid out).1.backendStatus = s.backendStatus) := by
  refine ⟨rfl, rfl, ?_, ?_, ?_, ?_,
    ChatApp.sendMessage_backendStatus, ChatApp.processFile_backendStatus,
    ChatApp.toggleSelection_backendStatus, ChatApp.removeDocument_backendStatus,
    PartA.sendMessage_backendStatus_pa, PartA.processFile_backendStatus_pa,
    fun s id => rfl, PartA.removeDocument_backendStatus_pa⟩
  · intro s st bp
    refine ⟨?_, rfl, rfl⟩
    unfold ChatApp.checkHealth
    cases bp <;> rfl
  · intro s st bp
    exact ⟨rfl, rfl, rfl⟩
  · intro s out
    unfold ChatApp.checkHealth
    cases out with
    | netErr => simp
    | response ok st bp => cases ok <;> cases bp <;> simp
  · intro s out
    unfold PartA.checkHealth
    cases out with
    | netErr => simp
    | response ok st bp => cases ok <;> simp

/-- C10: `removeDocument` on a document with no recorded session id
issues no request, never fails or rolls back (the result is independent
of the remote outcome), leaves the error banner untouched, and the
removal is final — in both variants. -/
theorem c10_remove_no_session :
    (∀ (s : ChatApp.State) (id : String) (out outAlt : DeleteOutcome),
        ChatApp.removeDocument s id none out
          = ChatApp.removeDocument s id none outAlt ∧
        (ChatApp.removeDocument s id none out).2 = [] ∧
        (ChatApp.removeDocument s id none out).1.documents
          = s.documents.filter (fun (d : Document) => d.id != id) ∧
        (ChatApp.removeDocument s id none out).1.apiError = s.apiError) ∧
    (∀ (s : PartA.State) (id : String) (out outAlt : DeleteOutcome),
        PartA.removeDocument s id none out
          = PartA.removeDocument s id none outAlt ∧
        (PartA.removeDocument s id none out).2 = [] ∧
        (PartA.removeDocument s id none out).1.documents
          = s.documents.filter (fun (d : Document) => d.id != id) ∧
        (PartA.removeDocument s id none out).1.apiError = s.apiError) := by
  constructor
  · intro s id out outAlt
    refine ⟨rfl, rfl, ?_, ?_⟩
    · unfold ChatApp.removeDocument
      dsimp only
      split <;> rfl
    · unfold ChatApp.removeDocument
      dsimp only
      split <;> rfl
  · intro s id out outAlt
    exact ⟨rfl, rfl, rfl, rfl⟩

end ChatPdf
